import Mathlib

/-!
Shallow embedding of the `flocker` prototype (files `flocker/snapshots.py`
and `flocker/provision/_install.py`) and proofs about it.

`flocker/snapshots.py` builds a machinist finite state machine.  The wired
transition table registers exactly one transition,
`(IDLE, FILESYSTEM_CHANGED) -> ([START_SNAPSHOT], SNAPSHOTTING)`, and
registers `SNAPSHOTTING` with an empty transition map; the inputs
`SNAPSHOT_SUCCEEDED` / `SNAPSHOT_FAILED` and the state `SNAPSHOTTING_DIRTY`
are commented out in the source.  Machinist raises `IllegalInput`, leaving
the state unchanged, when an input arrives in a state whose transition map
has no entry for it; that exception propagates out of
`ChangeSnapshotter.filesystemChanged`, which calls `self._fsm.receive`.

`flocker/provision/_install.py` is a linear recipe: pure task functions
return lists of `Run`/`Put` commands and `provision` concatenates them and
hands them to `run_with_fabric`, which executes them in order over one
remote session and then disconnects.
-/

namespace Flocker

namespace Snapshots

/-- Model of a Python `datetime` as produced by `datetime.fromtimestamp`:
the POSIX timestamp it was built from (in seconds, as read from
`clock.seconds()`) together with the `tzinfo` argument (`none` for a naive
datetime, `some tz` for an aware one). -/
structure PyDateTime where
  epochSeconds : Int
  tzinfo : Option String
deriving DecidableEq, Repr

/-- The `pytz.UTC` timezone object, identified by its name. -/
def UTC : String := "UTC"

/-- `datetime.fromtimestamp(t, tz)`: an aware datetime for timestamp `t`. -/
def datetimeFromtimestamp (t : Int) (tz : String) : PyDateTime :=
  { epochSeconds := t, tzinfo := some tz }

/-- `SnapshotName(timestamp, node)` from `flocker/snapshots.py`: the name of
a snapshot, a timestamp plus the name of the creating node. -/
structure SnapshotName where
  timestamp : PyDateTime
  node : String
deriving DecidableEq, Repr

/-- `_Inputs` from `flocker/snapshots.py`.  Only `FILESYSTEM_CHANGED` is
declared; `SNAPSHOT_SUCCEEDED` and `SNAPSHOT_FAILED` are commented out in
the source and hence are not members of the input alphabet. -/
inductive Inputs where
  | FILESYSTEM_CHANGED
deriving DecidableEq, Repr

/-- `_Outputs` from `flocker/snapshots.py`. -/
inductive Outputs where
  | START_SNAPSHOT
deriving DecidableEq, Repr

/-- `_States` from `flocker/snapshots.py`.  Only `IDLE` and `SNAPSHOTTING`
are declared; `SNAPSHOTTING_DIRTY` is commented out in the source and hence
is not a member of the state set. -/
inductive States where
  | IDLE
  | SNAPSHOTTING
deriving DecidableEq, Repr

/-- The wired transition table `_transitions`:
`addTransitions(IDLE, {FILESYSTEM_CHANGED: ([START_SNAPSHOT], SNAPSHOTTING)})`
followed by `addTransitions(SNAPSHOTTING, {})`.  `none` means the state's
transition map has no entry for the input. -/
def transitionTable : States → Inputs → Option (List Outputs × States)
  | States.IDLE, Inputs.FILESYSTEM_CHANGED =>
      some ([Outputs.START_SNAPSHOT], States.SNAPSHOTTING)
  | States.SNAPSHOTTING, _ => none

/-- Machinist's `IllegalInput` exception: records the state the machine was
in and the input symbol that had no transition there. -/
structure IllegalInput where
  state : States
  symbol : Inputs
deriving DecidableEq, Repr

/-- Machinist `FiniteStateMachine.receive` for this table: look the input up
in the current state's transition map; if present, move to the next state
and emit the outputs; otherwise raise `IllegalInput` and leave the state
unchanged. -/
def receive (s : States) (i : Inputs) :
    Except IllegalInput (List Outputs × States) :=
  match transitionTable s i with
  | some r => Except.ok r
  | none => Except.error { state := s, symbol := i }

/-- The mutable state of a `ChangeSnapshotter`: the node name passed to
`__init__` and the current state of its finite state machine (initially
`IDLE`). -/
structure ChangeSnapshotter where
  _name : String
  fsmState : States
deriving DecidableEq, Repr

/-- `ChangeSnapshotter.__init__(name, clock, fsSnapshots)`: the machine
starts in `IDLE`.  The clock and snapshot provider are modelled as part of
the run environment (see `Effect` and `filesystemChanged`). -/
def ChangeSnapshotter.construct (name : String) : ChangeSnapshotter :=
  { _name := name, fsmState := States.IDLE }

/-- An externally visible side effect performed by an output handler:
`create n` is a call `fsSnapshots.create(n)` on the snapshot provider, and
`callLater d` would be arming a `d`-second timer on the reactor clock (the
deadline/timeout a provider call could be cancelled by).  The wired code
only ever performs `create`. -/
inductive Effect where
  | create (name : SnapshotName)
  | callLater (delaySeconds : Int)
deriving DecidableEq, Repr

/-- `ChangeSnapshotter.output_START_SNAPSHOT`: builds
`SnapshotName(datetime.fromtimestamp(self._clock.seconds(), UTC), self._name)`
and calls `self._fsSnapshots.create(name)`.  `now` is the value
`self._clock.seconds()` returns at the moment the handler runs.  The list
is the complete sequence of side effects the handler performs. -/
def output_START_SNAPSHOT (cs : ChangeSnapshotter) (now : Int) : List Effect :=
  [Effect.create { timestamp := datetimeFromtimestamp now UTC, node := cs._name }]

/-- Dispatch of one FSM output to its handler by `MethodSuffixOutputer`. -/
def runOutput (cs : ChangeSnapshotter) (now : Int) : Outputs → List Effect
  | Outputs.START_SNAPSHOT => output_START_SNAPSHOT cs now

/-- `ChangeSnapshotter.filesystemChanged()`: feed `FILESYSTEM_CHANGED` into
the machine.  On a legal transition the state advances and each output's
handler runs; on `IllegalInput` the exception propagates to the caller and
the snapshotter is unchanged.  `now` is the clock reading during this
call. -/
def filesystemChanged (cs : ChangeSnapshotter) (now : Int) :
    Except IllegalInput (ChangeSnapshotter × List Effect) :=
  match receive cs.fsmState Inputs.FILESYSTEM_CHANGED with
  | Except.ok (outs, s2) =>
      Except.ok ({ cs with fsmState := s2 }, (outs.map (runOutput cs now)).flatten)
  | Except.error e => Except.error e

/-- Result of delivering a sequence of change notifications: the final
snapshotter, every provider/clock side effect performed, in order, and
every `IllegalInput` exception that escaped to the external watcher, in
order. -/
structure RunResult where
  snapshotter : ChangeSnapshotter
  effects : List Effect
  errors : List IllegalInput
deriving DecidableEq, Repr

/-- Deliver a list of change notifications one at a time; the `Int` of each
entry is the clock reading (`clock.seconds()`) when that notification is
dispatched.  An `IllegalInput` raised by one call is caught by the external
watcher (it escapes `filesystemChanged`); the snapshotter object survives
and later notifications are still delivered. -/
def runChanges (cs : ChangeSnapshotter) : List Int → RunResult
  | [] => { snapshotter := cs, effects := [], errors := [] }
  | t :: ts =>
    match filesystemChanged cs t with
    | Except.ok (cs2, effs) =>
        let r := runChanges cs2 ts
        { snapshotter := r.snapshotter, effects := effs ++ r.effects,
          errors := r.errors }
    | Except.error e =>
        let r := runChanges cs ts
        { snapshotter := r.snapshotter, effects := r.effects,
          errors := e :: r.errors }

/-- The `SnapshotProvider.create` calls a run performed, in order. -/
def RunResult.createCalls (r : RunResult) : List SnapshotName :=
  r.effects.filterMap (fun e =>
    match e with
    | Effect.create n => some n
    | Effect.callLater _ => none)

/-- The deadline timers a run armed on the clock, in order. -/
def RunResult.timersArmed (r : RunResult) : List Int :=
  r.effects.filterMap (fun e =>
    match e with
    | Effect.create _ => none
    | Effect.callLater d => some d)

end Snapshots

namespace Provision

/-- A remote command from `flocker/provision/_install.py`: `Run(command)`
runs a shell command on the remote host, `Put(content, path)` creates a
remote file with the given content. -/
inductive Command where
  | run (command : String)
  | put (content : String) (path : String)
deriving DecidableEq, Repr

/-- The punctuation characters of `pipes._safechars` (besides ASCII letters
and digits): `@%_-+=:,./`. -/
def pipesSafeChars : List Char :=
  ['@', '%', '_', '-', '+', '=', ':', ',', '.', '/']

/-- Membership in `pipes._safechars`: ASCII letters, digits, and
`pipesSafeChars`. -/
def isShellSafeChar (c : Char) : Bool :=
  c.isAlpha || c.isDigit || pipesSafeChars.contains c

/-- `pipes.quote` (imported as `shell_quote`): the empty string becomes two
quotes; a string of safe characters is returned unchanged; anything else is
wrapped in single quotes with each embedded single quote replaced by
quote-doublequote-quote-doublequote-quote. -/
def shell_quote (file : String) : String :=
  if file = "" then "\x27\x27"
  else if file.toList.all isShellSafeChar then file
  else "\x27" ++ file.replace "\x27" "\x27\"\x27\"\x27" ++ "\x27"

/-- `Run.from_args(command_args)`: shell-quote each argument and join with
spaces. -/
def runFromArgs (command_args : List String) : Command :=
  Command.run (String.intercalate " " (command_args.map shell_quote))

/-- `ZFS_REPO` constant. -/
def ZFS_REPO : String :=
  "https://s3.amazonaws.com/archive.zfsonlinux.org/fedora/zfs-release$(rpm -E %dist).noarch.rpm"

/-- `CLUSTERHQ_REPO` constant. -/
def CLUSTERHQ_REPO : String :=
  "https://storage.googleapis.com/archive.clusterhq.com/fedora/clusterhq-release$(rpm -E %dist).noarch.rpm"

/-- `task_install_kernel()`: install development headers for the running
kernel (one shell command; the trailing backslash in the source joins the
URL onto the `yum install` line). -/
def task_install_kernel : List Command :=
  [Command.run "\nUNAME_R=$(uname -r)\nPV=$\x7bUNAME_R%.*\x7d\nKV=$\x7bPV%%-*\x7d\nSV=$\x7bPV##*-\x7d\nARCH=$(uname -m)\nyum install -y https://kojipkgs.fedoraproject.org/packages/kernel/$\x7bKV\x7d/$\x7bSV\x7d/$\x7bARCH\x7d/kernel-devel-$\x7bUNAME_R\x7d.rpm\n"]

/-- `task_enable_docker()`: start docker and enable it at boot. -/
def task_enable_docker : List Command :=
  [Command.run "systemctl enable docker.service",
   Command.run "systemctl start docker.service"]

/-- `task_disable_firewall()`: add a permanent and an immediate ACCEPT rule
to the FORWARD chain. -/
def task_disable_firewall : List Command :=
  [runFromArgs (["firewall-cmd", "--permanent", "--direct"]
      ++ ["--add-rule", "ipv4", "filter", "FORWARD", "0", "-j", "ACCEPT"]),
   runFromArgs (["firewall-cmd", "--direct"]
      ++ ["--add-rule", "ipv4", "filter", "FORWARD", "0", "-j", "ACCEPT"])]

/-- `task_create_flocker_pool_file()`: create a file-backed zfs pool. -/
def task_create_flocker_pool_file : List Command :=
  [Command.run "mkdir -p /var/opt/flocker",
   Command.run "truncate --size 10G /var/opt/flocker/pool-vdev",
   Command.run "zpool create flocker /var/opt/flocker/pool-vdev"]

/-- The attributes of `PackageSource` (from `flocker/provision/_common.py`,
not present under `src/`) that `_install.py` reads: `branch`, `os_version`
(each a string or `None`) and `build_server` (a URL string). -/
structure PackageSource where
  branch : Option String
  os_version : Option String
  build_server : String
deriving DecidableEq, Repr

/-- Python truthiness of a string-or-None attribute: `None` and the empty
string are falsy, every other string is truthy. -/
def truthy : Option String → Bool
  | none => false
  | some s => s != ""

/-- `posixpath.join` on two components. -/
def posixpathJoin2 (path b : String) : String :=
  if b.startsWith "/" then b
  else if path = "" || path.endsWith "/" then path ++ b
  else path ++ "/" ++ b

/-- `posixpath.join` on three components. -/
def posixpathJoin3 (a b c : String) : String :=
  posixpathJoin2 (posixpathJoin2 a b) c

/-- Model of `urlparse.urljoin` restricted to the shape `_install.py` uses:
the reference is an absolute path (it comes from `posixpath.join` with an
absolute first component), so the result is the base URL's scheme and
network location followed by the reference path. -/
def urljoin (base ref : String) : String :=
  match base.splitOn "://" with
  | scheme :: rest :: _ =>
      scheme ++ "://" ++ ((rest.splitOn "/").headD "") ++ ref
  | _ => ref

/-- The dedented `clusterhq-build` yum-repo file contents, with `%s`
substituted by the build-result base URL. -/
def clusterhqBuildRepoContent (base_url : String) : String :=
  "[clusterhq-build]\nname=clusterhq-build\nbaseurl=" ++ base_url
    ++ "\ngpgcheck=0\nenabled=0\n"

/-- `task_install_flocker(package_source, distribution)`: install the zfs
and clusterhq release repos; if `package_source.branch` is truthy, also put
a `clusterhq-build` repo file pointing at the build server and pass
`--enablerepo=clusterhq-build` to the final install; the installed package
is `clusterhq-flocker-node`, suffixed with `-<os_version>` when
`package_source.os_version` is truthy. -/
def task_install_flocker (package_source : PackageSource)
    (distribution : String) : List Command :=
  let commands := [Command.run ("yum install -y " ++ ZFS_REPO),
                   Command.run ("yum install -y " ++ CLUSTERHQ_REPO)]
  let branchCommands :=
    if truthy package_source.branch then
      let result_path := posixpathJoin3 "/results/omnibus/"
        (package_source.branch.getD "") distribution
      let base_url := urljoin package_source.build_server result_path
      [Command.put (clusterhqBuildRepoContent base_url)
        "/etc/yum.repos.d/clusterhq-build.repo"]
    else []
  let branch_opt :=
    if truthy package_source.branch then ["--enablerepo=clusterhq-build"]
    else []
  let package :=
    if truthy package_source.os_version then
      "clusterhq-flocker-node-" ++ package_source.os_version.getD ""
    else "clusterhq-flocker-node"
  commands ++ branchCommands
    ++ [runFromArgs (["yum", "install"] ++ branch_opt ++ ["-y", package])]

/-- Whether a command is a `Put` (a remote file creation). -/
def Command.isPut : Command → Bool
  | Command.put _ _ => true
  | Command.run _ => false

/-- An event on the remote session opened by `run_with_fabric`: connecting
as `user@host`, executing a shell command (`fabric.api.run`), uploading a
file (`fabric.api.put`), or disconnecting (`disconnect_all`). -/
inductive SessionEvent where
  | connect (host_string : String)
  | exec (command : String)
  | putFile (content : String) (path : String)
  | disconnect
deriving DecidableEq, Repr

/-- Dispatch of one command by `run_with_fabric`'s `handlers` table. -/
def commandEvent : Command → SessionEvent
  | Command.run c => SessionEvent.exec c
  | Command.put content path => SessionEvent.putFile content path

/-- `run_with_fabric(username, address, commands)`: connect to
`username@address`, run each command in list order, then disconnect. -/
def run_with_fabric (username address : String) (commands : List Command) :
    List SessionEvent :=
  SessionEvent.connect (username ++ "@" ++ address)
    :: (commands.map commandEvent ++ [SessionEvent.disconnect])

/-- `provision(node, username, distribution, package_source)`: concatenate
the five task command lists in source order and hand them to
`run_with_fabric`. -/
def provision (node username distribution : String)
    (package_source : PackageSource) : List SessionEvent :=
  run_with_fabric username node
    (task_install_kernel
      ++ task_install_flocker package_source distribution
      ++ task_enable_docker
      ++ task_disable_firewall
      ++ task_create_flocker_pool_file)

end Provision

end Flocker

namespace Flocker.Snapshots

/-- Helper: from `SNAPSHOTTING` every notification raises `IllegalInput`
(the state's transition map is empty), so a run started there performs no
effects, never changes state, and turns every notification into an
escaped exception. -/
theorem runChanges_from_snapshotting (name : String) (ts : List Int) :
    runChanges { _name := name, fsmState := States.SNAPSHOTTING } ts =
      { snapshotter := { _name := name, fsmState := States.SNAPSHOTTING },
        effects := [],
        errors := ts.map (fun _ =>
          { state := States.SNAPSHOTTING,
            symbol := Inputs.FILESYSTEM_CHANGED }) } := by
  induction ts with
  | nil => rfl
  | cons t ts ih =>
      simp [runChanges, filesystemChanged, receive, transitionTable, ih]

/-- Helper: a run from the initial state on a nonempty notification list
performs exactly one `create` with the first notification's clock reading,
ends in `SNAPSHOTTING`, and every later notification raises. -/
theorem runChanges_construct_cons (name : String) (t : Int) (ts : List Int) :
    runChanges (ChangeSnapshotter.construct name) (t :: ts) =
      { snapshotter := { _name := name, fsmState := States.SNAPSHOTTING },
        effects := [Effect.create
          { timestamp := datetimeFromtimestamp t UTC, node := name }],
        errors := ts.map (fun _ =>
          { state := States.SNAPSHOTTING,
            symbol := Inputs.FILESYSTEM_CHANGED }) } := by
  simp [runChanges, ChangeSnapshotter.construct, filesystemChanged, receive,
    transitionTable, runOutput, output_START_SNAPSHOT,
    runChanges_from_snapshotting]

/-- C1: over every sequence of delivered change notifications, the
`ChangeSnapshotter` makes at most one `SnapshotProvider.create` call in
total — in particular it never makes a second `create` call before a
previously started attempt has resolved (in the wired machine no
resolution input exists at all, so at most one attempt is ever started). -/
theorem c1_at_most_one_outstanding_attempt (name : String) (ts : List Int) :
    (runChanges (ChangeSnapshotter.construct name) ts).createCalls.length ≤ 1 := by
  cases ts with
  | nil => simp [runChanges, RunResult.createCalls]
  | cons t ts => simp [runChanges_construct_cons, RunResult.createCalls]

/-- C3 (code_bug evidence): `filesystemChanged` does not always return
normally — on the trace with notifications at clock readings 0 and 1, the
second delivery finds the machine in `SNAPSHOTTING`, whose transition map
is empty, and machinist's `IllegalInput` exception escapes to the caller. -/
theorem c3_second_notification_raises :
    (runChanges (ChangeSnapshotter.construct "node1") [0, 1]).errors =
      [{ state := States.SNAPSHOTTING,
         symbol := Inputs.FILESYSTEM_CHANGED }] := by
  rfl

/-- C2 (code_bug evidence): delivering `FILESYSTEM_CHANGED` while
`SNAPSHOTTING` raises `IllegalInput` instead of producing no output and
moving to `SNAPSHOTTING_DIRTY`; indeed the wired state set contains only
`IDLE` and `SNAPSHOTTING` — `SNAPSHOTTING_DIRTY` does not exist. -/
theorem c2_changed_while_snapshotting_raises :
    receive States.SNAPSHOTTING Inputs.FILESYSTEM_CHANGED =
      Except.error { state := States.SNAPSHOTTING,
                     symbol := Inputs.FILESYSTEM_CHANGED }
    ∧ (∀ s : States, s = States.IDLE ∨ s = States.SNAPSHOTTING) := by
  refine ⟨rfl, ?_⟩
  intro s
  cases s
  · exact Or.inl rfl
  · exact Or.inr rfl

/-- C4 (code_bug evidence): the wired input alphabet contains only
`FILESYSTEM_CHANGED` — there is no `SNAPSHOT_FAILED` input to deliver (it
is commented out in the source) — and the `SNAPSHOTTING` state, the only
state in which an attempt is outstanding, has no transition at all, so no
retry `START_SNAPSHOT` can ever be produced while an attempt is
outstanding. -/
theorem c4_no_failed_input_no_retry :
    (∀ i : Inputs, i = Inputs.FILESYSTEM_CHANGED)
    ∧ transitionTable States.SNAPSHOTTING Inputs.FILESYSTEM_CHANGED = none := by
  refine ⟨?_, rfl⟩
  intro i
  cases i
  rfl

/-- C5 (code_bug evidence): there is no `SNAPSHOT_SUCCEEDED` input in the
wired machine, and delivering any existing input while `SNAPSHOTTING`
raises `IllegalInput` rather than returning the machine to `IDLE`. -/
theorem c5_no_succeeded_transition (i : Inputs) :
    receive States.SNAPSHOTTING i =
      Except.error { state := States.SNAPSHOTTING, symbol := i } := by
  cases i
  rfl

/-- C6: every `create` call a run makes (there is one exactly when at least
one notification was delivered) is passed a `SnapshotName` whose timestamp
is `datetime.fromtimestamp` of the clock reading at the dispatch that
started the attempt, normalized to the `UTC` time zone, and whose node
field is the node name the coordinator was constructed with. -/
theorem c6_snapshot_name_from_clock_at_start (name : String) (ts : List Int) :
    (runChanges (ChangeSnapshotter.construct name) ts).createCalls =
      ts.head?.toList.map (fun t =>
        { timestamp := datetimeFromtimestamp t UTC, node := name }) := by
  cases ts with
  | nil => rfl
  | cons t ts => simp [runChanges_construct_cons, RunResult.createCalls]

/-- C7 (code_bug evidence): no run ever arms a deadline timer on the clock
— `output_START_SNAPSHOT` only calls `fsSnapshots.create` and never adds
the 10-second timeout its own docstring prescribes — so an unresolved
attempt is never cancelled, never synthesizes a failure, and never
triggers a retry. -/
theorem c7_no_deadline_timer_armed (name : String) (ts : List Int) :
    (runChanges (ChangeSnapshotter.construct name) ts).timersArmed = [] := by
  cases ts with
  | nil => rfl
  | cons t ts => simp [runChanges_construct_cons, RunResult.timersArmed]

/-- C9: once the first change notification has been delivered, the
coordinator is in `SNAPSHOTTING` and stays there whatever notifications
follow, and exactly one `SnapshotProvider.create` call is made over the
whole run — it never returns to `IDLE` and never starts a second
snapshot. -/
theorem c9_snapshotting_forever_single_create (name : String) (t : Int)
    (ts : List Int) :
    (runChanges (ChangeSnapshotter.construct name)
        (t :: ts)).snapshotter.fsmState = States.SNAPSHOTTING
    ∧ (runChanges (ChangeSnapshotter.construct name)
        (t :: ts)).createCalls.length = 1 := by
  simp [runChanges_construct_cons, RunResult.createCalls]

end Flocker.Snapshots

namespace Flocker.Provision

/-- Helper: both firewall commands consist entirely of shell-safe
arguments, so `Run.from_args` joins them verbatim. -/
theorem task_disable_firewall_eq :
    task_disable_firewall =
      [Command.run
        "firewall-cmd --permanent --direct --add-rule ipv4 filter FORWARD 0 -j ACCEPT",
       Command.run
        "firewall-cmd --direct --add-rule ipv4 filter FORWARD 0 -j ACCEPT"] := by
  rfl

/-- C8: `provision` connects to `username@node` and executes, in this fixed
order: the kernel-development-headers install, the flocker/zfs package
installation commands, the two docker service-enable commands, the two
firewall-rule commands, the three pool-backing-store commands, and then
disconnects. -/
theorem c8_provision_fixed_order (node username distribution : String)
    (ps : PackageSource) :
    provision node username distribution ps =
      SessionEvent.connect (username ++ "@" ++ node)
        :: ([SessionEvent.exec
              "\nUNAME_R=$(uname -r)\nPV=$\x7bUNAME_R%.*\x7d\nKV=$\x7bPV%%-*\x7d\nSV=$\x7bPV##*-\x7d\nARCH=$(uname -m)\nyum install -y https://kojipkgs.fedoraproject.org/packages/kernel/$\x7bKV\x7d/$\x7bSV\x7d/$\x7bARCH\x7d/kernel-devel-$\x7bUNAME_R\x7d.rpm\n"]
            ++ (task_install_flocker ps distribution).map commandEvent
            ++ [SessionEvent.exec "systemctl enable docker.service",
                SessionEvent.exec "systemctl start docker.service",
                SessionEvent.exec
                  "firewall-cmd --permanent --direct --add-rule ipv4 filter FORWARD 0 -j ACCEPT",
                SessionEvent.exec
                  "firewall-cmd --direct --add-rule ipv4 filter FORWARD 0 -j ACCEPT",
                SessionEvent.exec "mkdir -p /var/opt/flocker",
                SessionEvent.exec "truncate --size 10G /var/opt/flocker/pool-vdev",
                SessionEvent.exec "zpool create flocker /var/opt/flocker/pool-vdev",
                SessionEvent.disconnect]) := by
  simp [provision, run_with_fabric, task_install_kernel, task_enable_docker,
    task_disable_firewall_eq, task_create_flocker_pool_file, commandEvent]

/-- Helper: `Run.from_args` on the no-branch install arguments; `yum`,
`install` and `-y` are shell-safe and join verbatim around the quoted
package name. -/
theorem runFromArgs_install_plain (pkg : String) :
    runFromArgs ["yum", "install", "-y", pkg] =
      Command.run ("yum install -y " ++ shell_quote pkg) := rfl

/-- Helper: `Run.from_args` on the with-branch install arguments;
`--enablerepo=clusterhq-build` is shell-safe and joins verbatim. -/
theorem runFromArgs_install_enablerepo (pkg : String) :
    runFromArgs ["yum", "install", "--enablerepo=clusterhq-build", "-y", pkg] =
      Command.run
        ("yum install --enablerepo=clusterhq-build -y " ++ shell_quote pkg) := rfl

/-- C10: `task_install_flocker` ends with a `yum install` command whose
package argument is `clusterhq-flocker-node` suffixed with
`-<os_version>` exactly when `package_source.os_version` is set (truthy:
neither `None` nor empty), carrying an `--enablerepo=clusterhq-build`
option exactly when `package_source.branch` is set; and the command list
contains a `Put` of the `clusterhq-build` yum-repo file at
`/etc/yum.repos.d/clusterhq-build.repo` if and only if
`package_source.branch` is set (the full list is characterized). -/
theorem c10_task_install_flocker_characterization (ps : PackageSource)
    (distribution : String) :
    task_install_flocker ps distribution =
      [Command.run ("yum install -y " ++ ZFS_REPO),
       Command.run ("yum install -y " ++ CLUSTERHQ_REPO)]
      ++ (if truthy ps.branch then
            [Command.put
              (clusterhqBuildRepoContent (urljoin ps.build_server
                (posixpathJoin3 "/results/omnibus/" (ps.branch.getD "")
                  distribution)))
              "/etc/yum.repos.d/clusterhq-build.repo"]
          else [])
      ++ [Command.run ("yum install "
            ++ (if truthy ps.branch then "--enablerepo=clusterhq-build " else "")
            ++ "-y "
            ++ shell_quote (if truthy ps.os_version then
                  "clusterhq-flocker-node-" ++ ps.os_version.getD ""
                else "clusterhq-flocker-node"))] := by
  cases hb : truthy ps.branch <;>
    simp [task_install_flocker, hb, runFromArgs_install_plain,
      runFromArgs_install_enablerepo]

end Flocker.Provision
